import Mathlib

/-
Verification development for the Social-Arena/Feed simulation core.
Shallow embedding of src/feed/simulation/{engagement_simulator,viral_metrics,
trend_decay_model,session_manager}.py.  Python floats are modelled as real
numbers, Python ints as Nat/Int, datetimes as real hours since a fixed
midnight reference, and `random.uniform` draws as explicitly injected
parameters.  Python `int(x)` (truncation toward zero) is `pyTrunc`.
-/

/-- Python `int(x)` applied to a float: truncation toward zero. -/
noncomputable def pyTrunc (x : ℝ) : ℤ := if 0 ≤ x then ⌊x⌋ else ⌈x⌉

/-- Python `max` over a nonempty list (with an explicit default for `[]`,
matching `max(..., default=d)`). -/
def pyMaxList (l : List ℝ) (d : ℝ) : ℝ :=
  match l with
  | [] => d
  | x :: xs => xs.foldl max x

/-- Substring test on character lists: Python `needle in hay` for strings. -/
def listContains (hay needle : List Char) : Bool :=
  match hay with
  | [] => needle.isEmpty
  | _ :: t => needle.isPrefixOf hay || listContains t needle

/-- Python `sub in s` substring containment for strings. -/
def strContainsSub (s sub : String) : Bool :=
  listContains s.toList sub.toList

/-- Python `str.lower()`: per-character lowercasing.  (Structurally
recursive stand-in for `String.toLower`, whose well-founded recursion
does not reduce in the kernel.) -/
def strToLower (s : String) : String :=
  ⟨s.toList.map Char.toLower⟩

/-- `datetime.hour` of a time given as real hours since a midnight reference. -/
noncomputable def hourOf (t : ℝ) : ℕ := (⌊t⌋ % 24).toNat

/-- src/feed/models/metrics.py, `PublicMetrics` dataclass. -/
structure PublicMetrics where
  retweet_count : ℕ := 0
  reply_count : ℕ := 0
  like_count : ℕ := 0
  quote_count : ℕ := 0
  bookmark_count : ℕ := 0
  impression_count : Option ℕ := none

/-- src/feed/models/feed.py, `Feed` dataclass, restricted to the fields the
simulation core reads.  `created_at` (an ISO timestamp string in the source)
is modelled as parsed real hours; `hashtags` collects the tag strings of
`entities.hashtags`, with `[]` standing for "no entities or empty hashtag
list" (the two are indistinguishable to every truthiness test in the core). -/
structure Feed where
  id : String
  text : String
  author_id : String
  created_at : ℝ
  hashtags : List String := []
  public_metrics : PublicMetrics := {}

/-- src/feed/simulation/engagement_simulator.py, `EngagementConfig` dataclass
(lines 19-35).  A plain record: the dataclass performs no validation. -/
structure EngagementConfig where
  simulation_duration : ℤ := 72
  base_engagement_rate : ℝ := 0.03
  viral_threshold : ℝ := 0.7
  decay_rate : ℝ := 0.1
  time_step_hours : ℝ := 1.0

/-- src/feed/simulation/engagement_simulator.py, `TimeStepEngagement`. -/
structure TimeStepEngagement where
  time_step : ℕ
  timestamp : ℝ
  exposure : ℕ
  likes : ℤ
  retweets : ℤ
  quotes : ℤ
  replies : ℤ
  total_engagement : ℤ

/-- src/feed/simulation/engagement_simulator.py,
`TimeDynamics.calculate_time_decay` (lines 163-213): half-life 6h for
news/breaking text, 48h for viral-class hashtags, else 24h; exponential
decay of the age.  (The unparsable-timestamp fallback of 0.5 is outside
the model: `created_at` is already a parsed time here.) -/
noncomputable def calculate_time_decay (f : Feed) (current_time : ℝ) : ℝ :=
  let age := current_time - f.created_at
  let half_life : ℝ :=
    if strContainsSub (strToLower f.text) "news" || strContainsSub (strToLower f.text) "breaking" then 6
    else if f.hashtags ≠ [] then
      (if (f.hashtags.map strToLower).any
          (fun tag => tag == "viral" || tag == "trending" || tag == "breaking") then 48 else 24)
    else 24
  Real.exp (-(age / half_life))

/-- src/feed/simulation/engagement_simulator.py,
`TimeDynamics.get_hourly_activity_multiplier` (lines 215-228). -/
def hourlyActivityMultiplier (hour : ℕ) : ℝ :=
  match hour with
  | 0 => 0.2 | 1 => 0.1 | 2 => 0.1 | 3 => 0.1 | 4 => 0.1 | 5 => 0.2
  | 6 => 0.4 | 7 => 0.7 | 8 => 0.9 | 9 => 1.0 | 10 => 1.0 | 11 => 1.0
  | 12 => 0.8 | 13 => 1.0 | 14 => 1.0 | 15 => 1.0 | 16 => 0.8 | 17 => 0.7
  | 18 => 0.8 | 19 => 1.0 | 20 => 1.0 | 21 => 1.0 | 22 => 0.7 | 23 => 0.4
  | _ => 0.5

/-- src/feed/simulation/engagement_simulator.py,
`EngagementSimulator._estimate_content_quality` (lines 377-400):
quality = clamp(0.5 + engagement_rate / 0.02, 0.5, 2.0), with impressions
defaulting to 1000 when `impression_count` is falsy (None or 0). -/
noncomputable def estimate_content_quality (f : Feed) : ℝ :=
  let total_engagement : ℕ :=
    f.public_metrics.like_count + f.public_metrics.retweet_count +
    f.public_metrics.quote_count + f.public_metrics.reply_count
  let impressions : ℕ :=
    match f.public_metrics.impression_count with
    | some n => if n = 0 then 1000 else n
    | none => 1000
  let engagement_rate : ℝ := (total_engagement : ℝ) / (impressions : ℝ)
  let quality := 0.5 + engagement_rate / 0.02
  max 0.5 (min quality 2.0)

/-- src/feed/simulation/engagement_simulator.py,
`EngagementSimulator._simulate_time_step_engagement` (lines 315-375).
The `random.uniform(0.8, 1.2)` draw is injected as `jitter`. -/
noncomputable def simulate_time_step_engagement (cfg : EngagementConfig) (f : Feed)
    (exposure : ℕ) (time_step : ℕ) (current_time : ℝ) (jitter : ℝ) : TimeStepEngagement :=
  let time_decay := calculate_time_decay f current_time
  let hour_multiplier := hourlyActivityMultiplier (hourOf current_time)
  let effective_rate := cfg.base_engagement_rate * time_decay * hour_multiplier
  let content_quality := estimate_content_quality f
  let effective_rate := effective_rate * content_quality
  let total_engaged : ℤ := pyTrunc ((exposure : ℝ) * effective_rate * jitter)
  let likes := pyTrunc ((total_engaged : ℝ) * 0.7)
  let retweets := pyTrunc ((total_engaged : ℝ) * 0.15)
  let quotes := pyTrunc ((total_engaged : ℝ) * 0.05)
  let replies := pyTrunc ((total_engaged : ℝ) * 0.10)
  { time_step := time_step, timestamp := current_time, exposure := exposure,
    likes := likes, retweets := retweets, quotes := quotes, replies := replies,
    total_engagement := total_engaged }

/-- The feed of claim C1: total engagement 20, impression count 1000
(an exact 2% engagement rate). -/
def feedC1 : Feed :=
  { id := "f1", text := "", author_id := "a", created_at := 0,
    public_metrics := { like_count := 20, impression_count := some 1000 } }

/-- src/feed/simulation/viral_metrics.py, `ViralContext` dataclass
(lines 55-75).  A plain record; `network_density` is stored unvalidated. -/
structure ViralContext where
  author_follower_count : ℕ := 0
  author_verified : Bool := false
  trending_hashtags : List String := []
  current_trends : List String := []
  time_of_day : ℕ := 12
  day_of_week : ℕ := 0
  network_density : ℝ := 0.5

/-- src/feed/simulation/viral_metrics.py, `ViralPotential` dataclass
(`contributing_factors`, a debug dictionary of the five factors, is not
carried in the model). -/
structure ViralPotential where
  probability : ℝ
  estimated_peak_reach : ℤ
  time_to_peak_hours : ℝ
  confidence_score : ℝ

/-- src/feed/simulation/viral_metrics.py,
`ViralityCalculator._estimate_original_reach` (lines 168-192), fallback
branch: `int(total/0.03) if total > 0 else 100`, then `max(..., 100)`. -/
noncomputable def reach_fallback (f : Feed) : ℕ :=
  let total_engagement : ℕ :=
    f.public_metrics.like_count + f.public_metrics.reply_count +
    f.public_metrics.retweet_count + f.public_metrics.quote_count
  let estimated_reach : ℤ :=
    if 0 < total_engagement then pyTrunc ((total_engagement : ℝ) / 0.03) else 100
  (max estimated_reach 100).toNat

/-- src/feed/simulation/viral_metrics.py,
`ViralityCalculator._estimate_original_reach` (lines 168-192): the
impression count when truthy (present and nonzero), else the engagement
based fallback. -/
noncomputable def estimate_original_reach (f : Feed) : ℕ :=
  match f.public_metrics.impression_count with
  | some n => if n ≠ 0 then n else reach_fallback f
  | none => reach_fallback f

/-- src/feed/simulation/viral_metrics.py,
`ViralityCalculator.calculate_viral_coefficient` (lines 124-166):
(retweets + quotes) / estimated original reach, with a guard returning 0
on zero reach. -/
noncomputable def calculate_viral_coefficient (f : Feed) : ℝ :=
  let shares : ℕ := f.public_metrics.retweet_count + f.public_metrics.quote_count
  let original_reach := estimate_original_reach f
  if original_reach = 0 then 0.0 else (shares : ℝ) / (original_reach : ℝ)

/-- src/feed/simulation/viral_metrics.py,
`ViralityCalculator._calculate_content_factor` (lines 355-368). -/
noncomputable def calculate_content_factor (f : Feed) : ℝ :=
  let total_engagement : ℕ :=
    f.public_metrics.like_count + f.public_metrics.retweet_count * 2 +
    f.public_metrics.quote_count * 2 + f.public_metrics.reply_count
  let reach := estimate_original_reach f
  let engagement_rate : ℝ := (total_engagement : ℝ) / (max reach 1 : ℕ)
  min (engagement_rate / 0.05) 1.0

/-- src/feed/simulation/viral_metrics.py,
`ViralityCalculator._calculate_influence_factor` (lines 370-381). -/
noncomputable def calculate_influence_factor (ctx : ViralContext) : ℝ :=
  let follower_factor : ℝ :=
    if 0 < ctx.author_follower_count then
      Real.logb 10 (ctx.author_follower_count : ℝ) / 7
    else 0.0
  let verified_bonus : ℝ := if ctx.author_verified then 0.2 else 0.0
  min (follower_factor + verified_bonus) 1.0

/-- src/feed/simulation/viral_metrics.py,
`ViralityCalculator._calculate_timing_factor` (lines 383-399). -/
noncomputable def calculate_timing_factor (ctx : ViralContext) : ℝ :=
  let hour := ctx.time_of_day
  let time_score : ℝ :=
    if hour ∈ [9, 10, 11, 13, 14, 15, 19, 20, 21] then 1.0
    else if hour ∈ [8, 12, 16, 17, 18, 22] then 0.7
    else 0.4
  let day_score : ℝ := if ctx.day_of_week < 5 then 0.8 else 0.6
  (time_score + day_score) / 2

/-- src/feed/simulation/viral_metrics.py,
`ViralityCalculator._calculate_trend_factor` (lines 401-415).  Python set
comprehensions are modelled by `dedup` of the lowercased lists. -/
noncomputable def calculate_trend_factor (f : Feed) (ctx : ViralContext) : ℝ :=
  if f.hashtags = [] then 0.3
  else
    let feed_hashtags := (f.hashtags.map strToLower).dedup
    let trending := (ctx.trending_hashtags.map strToLower).dedup
    if trending = [] then 0.5
    else
      let overlap : ℝ :=
        ((feed_hashtags.filter (fun tag => tag ∈ trending)).length : ℝ) / (trending.length : ℝ)
      min (overlap + 0.3) 1.0

/-- The peak-reach computation of `predict_viral_potential` (lines 314-317):
base reach is the follower count or 1000 when falsy, multiplied by
`1 + probability * 50` and truncated to int. -/
noncomputable def estimatedPeakReach (followers : ℕ) (probability : ℝ) : ℤ :=
  let base_reach : ℝ := if followers = 0 then 1000 else (followers : ℝ)
  let viral_multiplier := 1 + probability * 50
  pyTrunc (base_reach * viral_multiplier)

/-- src/feed/simulation/viral_metrics.py,
`ViralityCalculator.predict_viral_potential` (lines 256-353): weighted sum
of the five factors, peak reach, time to peak and confidence. -/
noncomputable def predict_viral_potential (f : Feed) (ctx : ViralContext) : ViralPotential :=
  let content_factor := calculate_content_factor f
  let influence_factor := calculate_influence_factor ctx
  let timing_factor := calculate_timing_factor ctx
  let trend_factor := calculate_trend_factor f ctx
  let network_factor := ctx.network_density
  let probability :=
    content_factor * 0.3 + influence_factor * 0.25 + timing_factor * 0.15 +
    trend_factor * 0.2 + network_factor * 0.1
  let hours_to_peak := 48 * (1 - probability * 0.5)
  let confidence := min ((content_factor + influence_factor + trend_factor) / 3) 0.95
  { probability := probability,
    estimated_peak_reach := estimatedPeakReach ctx.author_follower_count probability,
    time_to_peak_hours := hours_to_peak,
    confidence_score := confidence }

/-- The feed of claim C3: impression_count 10000, retweet_count 500,
quote_count 100. -/
def feedC3 : Feed :=
  { id := "f3", text := "", author_id := "a", created_at := 0,
    public_metrics :=
      { retweet_count := 500, quote_count := 100, impression_count := some 10000 } }

/-- The feed and context of the C6 counterexample. -/
def feedC6 : Feed :=
  { id := "f6", text := "", author_id := "a", created_at := 0,
    public_metrics := { like_count := 100, impression_count := some 100 } }

/-- A `ViralContext` with `network_density` outside [0,1]: the dataclass
accepts it unvalidated. -/
def ctxC6 : ViralContext :=
  { author_follower_count := 0, author_verified := true, trending_hashtags := [],
    time_of_day := 9, day_of_week := 0, network_density := 5 }

/-- The default `EngagementConfig()` (all dataclass defaults). -/
def defaultEngagementConfig : EngagementConfig := {}

/-- The feed of claim C2's concrete run: empty text, no hashtags, zero
metrics, created at 09:00 (an hour whose activity multiplier is 1.0). -/
def feedC2 : Feed :=
  { id := "f2", text := "", author_id := "a", created_at := 9 }

/-- src/feed/simulation/trend_decay_model.py, `TrendConfig` dataclass
(lines 27-49).  A plain record: the dataclass performs no validation. -/
structure TrendConfig where
  emergence_duration_hours : ℝ := 2.0
  growth_duration_hours : ℝ := 6.0
  peak_duration_hours : ℝ := 4.0
  decline_duration_hours : ℝ := 12.0
  tail_duration_hours : ℝ := 48.0
  viral_momentum_threshold : ℝ := 100.0
  peak_momentum_threshold : ℝ := 500.0

/-- src/feed/simulation/session_manager.py, `SessionConfig` dataclass
(lines 18-32).  A plain record: the dataclass performs no validation. -/
structure SessionConfig where
  default_time_budget_minutes : ℝ := 30.0
  default_attention_span : ℝ := 1.0
  max_feed_view_time_seconds : ℝ := 30.0
  min_feed_view_time_seconds : ℝ := 2.0

/-- src/feed/simulation/viral_metrics.py, `EngagementEvent` dataclass. -/
structure EngagementEvent where
  timestamp : ℝ
  event_type : String
  user_id : String
  feed_id : String
  depth : ℕ := 0

/-- src/feed/simulation/session_manager.py, `ContentConsumption`
dataclass (lines 52-68). -/
structure ContentConsumption where
  feed : Feed
  view_time_seconds : ℝ
  engagement : Option EngagementEvent
  viewed_at : ℝ
  relevance_score : ℝ := 0.0

/-- src/feed/simulation/session_manager.py, `UserSession` dataclass
(lines 86-154): session state with consumption log and fatigue. -/
structure UserSession where
  user_id : String
  time_budget : ℝ
  attention_span : ℝ
  preferences : List (String × ℝ) := []
  user_interests : List String := []
  consumed_content : List ContentConsumption := []
  engagements : List EngagementEvent := []
  session_start : ℝ := 0
  fatigue_level : ℝ := 0.0

/-- src/feed/simulation/session_manager.py, `UserSession.time_remaining`
(lines 101-105): `max(0, time_budget - total_view_time_minutes)`. -/
noncomputable def UserSession.time_remaining (s : UserSession) : ℝ :=
  let total_view_time := (s.consumed_content.map (fun c => c.view_time_seconds)).sum / 60
  max 0 (s.time_budget - total_view_time)

/-- src/feed/simulation/session_manager.py, `UserSession.add_consumption`
(lines 124-132): append the record, append its engagement if any, then
`fatigue_level = min(1.0, fatigue_level + 0.01)`. -/
def UserSession.add_consumption (s : UserSession) (c : ContentConsumption) : UserSession :=
  { s with
    consumed_content := s.consumed_content ++ [c],
    engagements :=
      match c.engagement with
      | some e => s.engagements ++ [e]
      | none => s.engagements,
    fatigue_level := min 1.0 (s.fatigue_level + 0.01) }

/-- The session and consumption record used to instantiate C9. -/
def sessionW : UserSession :=
  { user_id := "u", time_budget := 30, attention_span := 1 }

/-- A concrete consumption record (5 seconds, no engagement). -/
def consW : ContentConsumption :=
  { feed := feedC2, view_time_seconds := 5, engagement := none, viewed_at := 9 }

/-- src/feed/simulation/trend_decay_model.py, `TrendPhase` enum. -/
inductive TrendPhase where
  | emergence
  | growth
  | peak
  | decline
  | tail
deriving DecidableEq

/-- src/feed/simulation/trend_decay_model.py, `TrendPhaseData` dataclass. -/
structure TrendPhaseData where
  phase : TrendPhase
  start_time : ℝ
  end_time : ℝ
  duration_hours : ℝ
  momentum_curve : List ℝ
  engagement_multiplier : ℝ

/-- src/feed/simulation/trend_decay_model.py, `TrendLifecycle` dataclass. -/
structure TrendLifecycle where
  trend : String
  phases : List TrendPhaseData
  start_time : ℝ
  current_phase : TrendPhase := TrendPhase.emergence
  total_mentions : ℕ := 0
  peak_momentum : ℝ := 0.0

/-- src/feed/simulation/trend_decay_model.py,
`TrendDecayModel._model_emergence_phase` (lines 203-231):
20 samples of `initial * (1 + 0.5 * progress)`. -/
noncomputable def model_emergence_phase (cfg : TrendConfig) (trend : String)
    (initial_momentum : ℝ) (start_time : ℝ) : TrendPhaseData :=
  let duration := cfg.emergence_duration_hours
  let end_time := start_time + duration
  { phase := TrendPhase.emergence, start_time := start_time, end_time := end_time,
    duration_hours := duration,
    momentum_curve := (List.range 20).map (fun (i : ℕ) => initial_momentum * (1 + ((i : ℝ) / 20) * 0.5)),
    engagement_multiplier := 1.1 }

/-- src/feed/simulation/trend_decay_model.py,
`TrendDecayModel._model_growth_phase` (lines 233-267):
30 samples of `initial * 1.5 * exp(3 * progress)`. -/
noncomputable def model_growth_phase (cfg : TrendConfig) (trend : String)
    (initial_momentum : ℝ) (start_time : ℝ) : TrendPhaseData :=
  let phase_start := start_time + cfg.emergence_duration_hours
  let duration := cfg.growth_duration_hours
  let end_time := phase_start + duration
  let base_momentum := initial_momentum * 1.5
  { phase := TrendPhase.growth, start_time := phase_start, end_time := end_time,
    duration_hours := duration,
    momentum_curve := (List.range 30).map (fun (i : ℕ) => base_momentum * Real.exp (3 * ((i : ℝ) / 30))),
    engagement_multiplier := 2.0 }

/-- src/feed/simulation/trend_decay_model.py,
`TrendDecayModel._model_peak_phase` (lines 269-306): 20 samples of the
peak plateau `initial * exp(3) * 1.5` jittered by `1 + u i`, where `u i`
stands for the per-sample `random.uniform(-0.1, 0.1)` draw. -/
noncomputable def model_peak_phase (cfg : TrendConfig) (u : ℕ → ℝ) (trend : String)
    (initial_momentum : ℝ) (start_time : ℝ) : TrendPhaseData :=
  let previous_duration := cfg.emergence_duration_hours + cfg.growth_duration_hours
  let phase_start := start_time + previous_duration
  let duration := cfg.peak_duration_hours
  let end_time := phase_start + duration
  let peak_momentum := initial_momentum * Real.exp 3 * 1.5
  { phase := TrendPhase.peak, start_time := phase_start, end_time := end_time,
    duration_hours := duration,
    momentum_curve := (List.range 20).map (fun i => peak_momentum * (1 + u i)),
    engagement_multiplier := 3.0 }

/-- src/feed/simulation/trend_decay_model.py,
`TrendDecayModel._model_decline_phase` (lines 308-346):
30 samples of `peak * exp(-3 * progress)`. -/
noncomputable def model_decline_phase (cfg : TrendConfig) (trend : String)
    (initial_momentum : ℝ) (start_time : ℝ) : TrendPhaseData :=
  let previous_duration := cfg.emergence_duration_hours + cfg.growth_duration_hours +
    cfg.peak_duration_hours
  let phase_start := start_time + previous_duration
  let duration := cfg.decline_duration_hours
  let end_time := phase_start + duration
  let peak_momentum := initial_momentum * Real.exp 3 * 1.5
  { phase := TrendPhase.decline, start_time := phase_start, end_time := end_time,
    duration_hours := duration,
    momentum_curve := (List.range 30).map (fun (i : ℕ) => peak_momentum * Real.exp (-(3 * ((i : ℝ) / 30)))),
    engagement_multiplier := 1.5 }

/-- src/feed/simulation/trend_decay_model.py,
`TrendDecayModel._model_tail_phase` (lines 348-388): 50 samples of
`start * (1 - log10(1 + 9 * progress))` floored at `initial * 0.5`,
with `start = initial * exp(-3) * 1.5`. -/
noncomputable def model_tail_phase (cfg : TrendConfig) (trend : String)
    (initial_momentum : ℝ) (start_time : ℝ) : TrendPhaseData :=
  let previous_duration := cfg.emergence_duration_hours + cfg.growth_duration_hours +
    cfg.peak_duration_hours + cfg.decline_duration_hours
  let phase_start := start_time + previous_duration
  let duration := cfg.tail_duration_hours
  let end_time := phase_start + duration
  let start_momentum := initial_momentum * Real.exp (-3) * 1.5
  { phase := TrendPhase.tail, start_time := phase_start, end_time := end_time,
    duration_hours := duration,
    momentum_curve := (List.range 50).map (fun (i : ℕ) =>
      max (start_momentum * (1 - Real.logb 10 (1 + 9 * ((i : ℝ) / 50)))) (initial_momentum * 0.5)),
    engagement_multiplier := 1.0 }

/-- src/feed/simulation/trend_decay_model.py,
`TrendDecayModel.model_trend_lifecycle` (lines 147-201): builds the five
phases in order and the peak momentum over the nonempty curves. -/
noncomputable def model_trend_lifecycle (cfg : TrendConfig) (u : ℕ → ℝ) (trend : String)
    (initial_momentum : ℝ) (start_time : ℝ) : TrendLifecycle :=
  let phases := [
    model_emergence_phase cfg trend initial_momentum start_time,
    model_growth_phase cfg trend initial_momentum start_time,
    model_peak_phase cfg u trend initial_momentum start_time,
    model_decline_phase cfg trend initial_momentum start_time,
    model_tail_phase cfg trend initial_momentum start_time]
  let peak_momentum := pyMaxList
    ((phases.filter (fun p => !p.momentum_curve.isEmpty)).map (fun p => pyMaxList p.momentum_curve 0)) 0
  { trend := trend, phases := phases, start_time := start_time,
    current_phase := TrendPhase.emergence, peak_momentum := peak_momentum }

/-- Placeholder phase used as the (never relevant) default of `phaseAt`. -/
def dummyPhase : TrendPhaseData :=
  { phase := TrendPhase.emergence, start_time := 0, end_time := 0, duration_hours := 0,
    momentum_curve := [], engagement_multiplier := 0 }

/-- The i-th phase of a lifecycle (dummy out of range). -/
def phaseAt (lc : TrendLifecycle) (i : ℕ) : TrendPhaseData :=
  lc.phases.getD i dummyPhase

/-- src/feed/simulation/trend_decay_model.py,
`TrendLifecycle.get_current_momentum` (lines 93-106), body of the loop:
interpolates into the curve of a phase whose window contains `t`. -/
noncomputable def momentum_sample (p : TrendPhaseData) (t : ℝ) : ℝ :=
  let elapsed := t - p.start_time
  let progress := elapsed / p.duration_hours
  let index := (pyTrunc (progress * ((p.momentum_curve.length : ℝ) - 1))).toNat
  p.momentum_curve.getD (min index (p.momentum_curve.length - 1)) 0

/-- src/feed/simulation/trend_decay_model.py,
`TrendLifecycle.get_current_momentum` (lines 93-106), loop structure: the
first phase whose window contains `t` *and* has a nonempty curve returns
its sample (an in-window phase with an empty curve falls through to later
phases); otherwise 0.0 ("trend ended"). -/
noncomputable def momentum_lookup (t : ℝ) : List TrendPhaseData → ℝ
  | [] => 0.0
  | p :: rest =>
    if p.start_time ≤ t ∧ t < p.end_time ∧ p.momentum_curve.isEmpty = false then
      momentum_sample p t
    else momentum_lookup t rest

/-- src/feed/simulation/trend_decay_model.py,
`TrendLifecycle.get_current_momentum` (lines 93-106). -/
noncomputable def get_current_momentum (lc : TrendLifecycle) (t : ℝ) : ℝ :=
  momentum_lookup t lc.phases

/-- src/feed/simulation/trend_decay_model.py,
`TrendDecayModel.apply_trend_shock` (lines 441-450), the lifecycle
mutation: the first phase whose window contains the shock moment has every
momentum sample multiplied by `1 + intensity`, then the loop breaks. -/
noncomputable def shock_phases (t shock_intensity : ℝ) : List TrendPhaseData → List TrendPhaseData
  | [] => []
  | p :: rest =>
    if p.start_time ≤ t ∧ t < p.end_time then
      { p with momentum_curve := p.momentum_curve.map (fun m => m * (1 + shock_intensity)) } :: rest
    else p :: shock_phases t shock_intensity rest

/-- The effect of `TrendDecayModel.apply_trend_shock` (lines 390-467) on
an active lifecycle.  (The feed-metric boost and the returned `TrendShock`
record do not interact with the lifecycle and are not modelled.) -/
noncomputable def apply_trend_shock_lifecycle (lc : TrendLifecycle) (t : ℝ)
    (shock_intensity : ℝ) : TrendLifecycle :=
  { lc with phases := shock_phases t shock_intensity lc.phases }

/-- src/feed/simulation/trend_decay_model.py,
`TrendDecayModel.calculate_trend_momentum` (lines 510-564): an active
lifecycle is queried at `now`; otherwise, with both a mention count and an
engagement sum, the documented momentum formula; otherwise the default
1.0. -/
noncomputable def calculate_trend_momentum (active_trends : List (String × TrendLifecycle))
    (trend : String) (now : ℝ) (time_window_hours : ℝ)
    (mention_count engagement_sum : Option ℕ) : ℝ :=
  match active_trends.lookup trend with
  | some lifecycle => get_current_momentum lifecycle now
  | none =>
    match mention_count, engagement_sum with
    | some mc, some es =>
      let avg_engagement := (es : ℝ) / ((max mc 1 : ℕ) : ℝ)
      ((mc : ℝ) * avg_engagement) / time_window_hours
    | _, _ => 1.0

/-- The default `TrendConfig()` (all dataclass defaults). -/
def defaultTrendConfig : TrendConfig := {}

/-- The all-zero fluctuation sequence (centre of `random.uniform(-0.1, 0.1)`). -/
def zeroFluct : ℕ → ℝ := fun _ => 0

/-- A concrete lifecycle (default config, zero peak jitter, initial
momentum 10, creation time 0) shared by the witnesses. -/
noncomputable def lcW : TrendLifecycle :=
  model_trend_lifecycle defaultTrendConfig zeroFluct "trend" 10 0

/-- Claim C1: the spec (and the comment inside
`_estimate_content_quality` itself) say a 2% engagement rate maps to
quality 1.0; the implemented formula `0.5 + rate / 0.02` yields 1.5 at a 2%
rate, so a feed with total engagement 20 over 1000 impressions gets
multiplier 1.5, not 1.0. -/
theorem content_quality_formula_bug : estimate_content_quality feedC1 = 1.5 := by
  unfold estimate_content_quality feedC1
  norm_num

theorem reach_fallback_pos (f : Feed) : 0 < reach_fallback f := by
  simp only [reach_fallback]
  split <;> omega

theorem estimate_original_reach_pos (f : Feed) : 0 < estimate_original_reach f := by
  unfold estimate_original_reach
  cases h : f.public_metrics.impression_count with
  | none => exact reach_fallback_pos f
  | some n =>
    by_cases hn : n = 0
    · simp [hn]; exact reach_fallback_pos f
    · simp [hn]; omega

/-- Claim C3: the viral coefficient is (retweets + quotes) divided by the
estimated original reach; reach is the impression count when truthy, else
the total engagement divided by 0.03 (truncated to int) bounded below by
100; on the C3 example feed (impressions 10000, retweets 500, quotes 100)
the coefficient is exactly 0.06. -/
theorem viral_coefficient_formula :
    calculate_viral_coefficient feedC3 = 6 / 100
    ∧ (∀ f : Feed, calculate_viral_coefficient f =
        ((f.public_metrics.retweet_count + f.public_metrics.quote_count : ℕ) : ℝ)
          / (estimate_original_reach f : ℝ))
    ∧ (∀ f : Feed, ∀ n : ℕ, f.public_metrics.impression_count = some n → n ≠ 0 →
        estimate_original_reach f = n)
    ∧ (∀ f : Feed, f.public_metrics.impression_count = none →
        (estimate_original_reach f : ℤ) =
          max (pyTrunc (((f.public_metrics.like_count + f.public_metrics.reply_count +
            f.public_metrics.retweet_count + f.public_metrics.quote_count : ℕ) : ℝ) / 0.03)) 100) := by
  refine ⟨?_, ?_, ?_, ?_⟩
  · simp only [calculate_viral_coefficient, estimate_original_reach, feedC3]
    norm_num
  · intro f
    have h := estimate_original_reach_pos f
    simp only [calculate_viral_coefficient]
    rw [if_neg (by omega)]
  · intro f n h hn
    unfold estimate_original_reach
    rw [h]
    simp [hn]
  · intro f h
    have hr : estimate_original_reach f = reach_fallback f := by
      unfold estimate_original_reach
      rw [h]
    rw [hr]
    simp only [reach_fallback]
    rcases Nat.eq_zero_or_pos (f.public_metrics.like_count + f.public_metrics.reply_count +
        f.public_metrics.retweet_count + f.public_metrics.quote_count) with h0 | h0
    · rw [h0]
      norm_num [pyTrunc]
    · rw [if_pos h0]
      rw [Int.toNat_of_nonneg (le_trans (by norm_num) (le_max_right _ 100))]

/-- Concrete instance of `viral_coefficient_formula`: the C3 feed has a
truthy impression count, and its estimated reach is that count. -/
theorem viral_coefficient_formula_witness :
    feedC3.public_metrics.impression_count = some 10000
    ∧ estimate_original_reach feedC3 = 10000 := by
  refine ⟨rfl, ?_⟩
  exact viral_coefficient_formula.2.2.1 feedC3 10000 rfl (by norm_num)

theorem pyTrunc_mono {x y : ℝ} (h : x ≤ y) : pyTrunc x ≤ pyTrunc y := by
  unfold pyTrunc
  rcases le_or_lt 0 x with hx | hx
  · rw [if_pos hx, if_pos (le_trans hx h)]
    exact Int.floor_le_floor h
  · rw [if_neg (not_le.mpr hx)]
    rcases le_or_lt 0 y with hy | hy
    · rw [if_pos hy]
      calc ⌈x⌉ ≤ 0 := Int.ceil_le.mpr (by exact_mod_cast hx.le)
        _ ≤ ⌊y⌋ := Int.le_floor.mpr (by exact_mod_cast hy)
    · rw [if_neg (not_le.mpr hy)]
      exact Int.ceil_le_ceil h

theorem content_factor_bounds (f : Feed) :
    0 ≤ calculate_content_factor f ∧ calculate_content_factor f ≤ 1 := by
  simp only [calculate_content_factor]
  exact ⟨le_min (by positivity) (by norm_num), le_trans (min_le_right _ _) (by norm_num)⟩

theorem influence_factor_bounds (ctx : ViralContext) :
    0 ≤ calculate_influence_factor ctx ∧ calculate_influence_factor ctx ≤ 1 := by
  simp only [calculate_influence_factor]
  refine ⟨le_min ?_ (by norm_num), le_trans (min_le_right _ _) (by norm_num)⟩
  have h1 : (0:ℝ) ≤ (if 0 < ctx.author_follower_count then
      Real.logb 10 (ctx.author_follower_count : ℝ) / 7 else 0.0) := by
    split
    · refine div_nonneg (Real.logb_nonneg (by norm_num) ?_) (by norm_num)
      exact_mod_cast Nat.one_le_iff_ne_zero.mpr (by omega)
    · norm_num
  have h2 : (0:ℝ) ≤ (if ctx.author_verified then (0.2:ℝ) else 0.0) := by
    split <;> norm_num
  linarith

theorem timing_factor_bounds (ctx : ViralContext) :
    0 ≤ calculate_timing_factor ctx ∧ calculate_timing_factor ctx ≤ 1 := by
  simp only [calculate_timing_factor]
  refine ⟨?_, ?_⟩ <;> split_ifs <;> norm_num

theorem trend_factor_bounds (f : Feed) (ctx : ViralContext) :
    0 ≤ calculate_trend_factor f ctx ∧ calculate_trend_factor f ctx ≤ 1 := by
  simp only [calculate_trend_factor]
  split_ifs
  · norm_num
  · norm_num
  · refine ⟨le_min ?_ (by norm_num), le_trans (min_le_right _ _) (by norm_num)⟩
    positivity

/-- Claim C6 (amended): whenever the context's `network_density` lies in
[0,1] (the range the five-factor weighted sum was designed for), the
predicted probability lies in [0,1]; the estimated peak reach equals
`int(base_reach * (1 + probability*50))` with base reach the follower
count (or 1000 when zero), and that quantity is monotonically
non-decreasing in the probability for a fixed follower count. -/
theorem viral_potential_bounds (f : Feed) (ctx : ViralContext)
    (h0 : 0 ≤ ctx.network_density) (h1 : ctx.network_density ≤ 1) :
    (0 ≤ (predict_viral_potential f ctx).probability
      ∧ (predict_viral_potential f ctx).probability ≤ 1)
    ∧ (predict_viral_potential f ctx).estimated_peak_reach
        = estimatedPeakReach ctx.author_follower_count (predict_viral_potential f ctx).probability
    ∧ (∀ (b : ℕ) (p q : ℝ), p ≤ q → estimatedPeakReach b p ≤ estimatedPeakReach b q) := by
  obtain ⟨hc0, hc1⟩ := content_factor_bounds f
  obtain ⟨hi0, hi1⟩ := influence_factor_bounds ctx
  obtain ⟨ht0, ht1⟩ := timing_factor_bounds ctx
  obtain ⟨hr0, hr1⟩ := trend_factor_bounds f ctx
  refine ⟨⟨?_, ?_⟩, rfl, ?_⟩
  · simp only [predict_viral_potential]
    nlinarith
  · simp only [predict_viral_potential]
    nlinarith
  · intro b p q hpq
    simp only [estimatedPeakReach]
    apply pyTrunc_mono
    have hb : (0:ℝ) ≤ (if b = 0 then (1000:ℝ) else (b : ℝ)) := by
      split <;> norm_num
    nlinarith

/-- Counterexample to claim C6 as stated: with a context whose
`network_density` is 5 (accepted by the unvalidated dataclass), the
returned probability is 1.045 > 1. -/
theorem viral_probability_above_one_cex :
    1 < (predict_viral_potential feedC6 ctxC6).probability := by
  have hc : calculate_content_factor feedC6 = 1 := by
    simp only [calculate_content_factor, estimate_original_reach, feedC6]
    norm_num
  have hi : calculate_influence_factor ctxC6 = 0.2 := by
    simp only [calculate_influence_factor, ctxC6]
    norm_num
  have ht : calculate_timing_factor ctxC6 = 0.9 := by
    simp only [calculate_timing_factor, ctxC6]
    norm_num
  have htr : calculate_trend_factor feedC6 ctxC6 = 0.3 := by
    simp only [calculate_trend_factor, feedC6]
    norm_num
  have hd : ctxC6.network_density = 5 := rfl
  simp only [predict_viral_potential, hc, hi, ht, htr, hd]
  norm_num

/-- Concrete instance of `viral_potential_bounds` at the default context
(density 0.5). -/
theorem viral_potential_bounds_witness :
    0 ≤ (predict_viral_potential feedC3 ({} : ViralContext)).probability
    ∧ (predict_viral_potential feedC3 ({} : ViralContext)).probability ≤ 1 :=
  (viral_potential_bounds feedC3 ({} : ViralContext) (by norm_num) (by norm_num)).1

theorem calculate_time_decay_pos (f : Feed) (t : ℝ) : 0 < calculate_time_decay f t := by
  simp only [calculate_time_decay]
  exact Real.exp_pos _

theorem hourlyActivityMultiplier_nonneg (h : ℕ) : 0 ≤ hourlyActivityMultiplier h := by
  unfold hourlyActivityMultiplier
  split <;> norm_num

theorem estimate_content_quality_nonneg (f : Feed) : 0 ≤ estimate_content_quality f := by
  simp only [estimate_content_quality]
  exact le_trans (by norm_num) (le_max_left _ _)

theorem pyTrunc_nonneg {x : ℝ} (hx : 0 ≤ x) : 0 ≤ pyTrunc x := by
  unfold pyTrunc
  rw [if_pos hx]
  exact Int.le_floor.mpr (by exact_mod_cast hx)

theorem pyTrunc_le_self {x : ℝ} (hx : 0 ≤ x) : (pyTrunc x : ℝ) ≤ x := by
  unfold pyTrunc
  rw [if_pos hx]
  exact Int.floor_le x

/-- Claim C2 (amended): in every simulated time step the per-type counts
are the 70/15/5/10 proportions of the step total, each rounded down to an
integer; their sum is therefore at most — but in general not equal to —
the step's `total_engagement`. -/
theorem engagement_split_floors (cfg : EngagementConfig) (f : Feed)
    (exposure time_step : ℕ) (t jitter : ℝ)
    (hbase : 0 ≤ cfg.base_engagement_rate) (hj : 0 ≤ jitter) :
    (simulate_time_step_engagement cfg f exposure time_step t jitter).likes
      = pyTrunc (((simulate_time_step_engagement cfg f exposure time_step t jitter).total_engagement : ℝ) * 0.7)
    ∧ (simulate_time_step_engagement cfg f exposure time_step t jitter).retweets
      = pyTrunc (((simulate_time_step_engagement cfg f exposure time_step t jitter).total_engagement : ℝ) * 0.15)
    ∧ (simulate_time_step_engagement cfg f exposure time_step t jitter).quotes
      = pyTrunc (((simulate_time_step_engagement cfg f exposure time_step t jitter).total_engagement : ℝ) * 0.05)
    ∧ (simulate_time_step_engagement cfg f exposure time_step t jitter).replies
      = pyTrunc (((simulate_time_step_engagement cfg f exposure time_step t jitter).total_engagement : ℝ) * 0.10)
    ∧ 0 ≤ (simulate_time_step_engagement cfg f exposure time_step t jitter).total_engagement
    ∧ (simulate_time_step_engagement cfg f exposure time_step t jitter).likes
        + (simulate_time_step_engagement cfg f exposure time_step t jitter).retweets
        + (simulate_time_step_engagement cfg f exposure time_step t jitter).quotes
        + (simulate_time_step_engagement cfg f exposure time_step t jitter).replies
      ≤ (simulate_time_step_engagement cfg f exposure time_step t jitter).total_engagement := by
  simp only [simulate_time_step_engagement]
  set A := (exposure : ℝ) * (cfg.base_engagement_rate * calculate_time_decay f t *
    hourlyActivityMultiplier (hourOf t) * estimate_content_quality f) * jitter with hAdef
  have hA : 0 ≤ A := by
    apply mul_nonneg (mul_nonneg (by positivity) ?_) hj
    exact mul_nonneg (mul_nonneg (mul_nonneg hbase (calculate_time_decay_pos f t).le)
      (hourlyActivityMultiplier_nonneg _)) (estimate_content_quality_nonneg f)
  have hT : 0 ≤ pyTrunc A := pyTrunc_nonneg hA
  have hTr : (0:ℝ) ≤ (pyTrunc A : ℝ) := by exact_mod_cast hT
  refine ⟨trivial, trivial, trivial, trivial, hT, ?_⟩
  have l1 : (pyTrunc ((pyTrunc A : ℝ) * 0.7) : ℝ) ≤ (pyTrunc A : ℝ) * 0.7 :=
    pyTrunc_le_self (by nlinarith)
  have l2 : (pyTrunc ((pyTrunc A : ℝ) * 0.15) : ℝ) ≤ (pyTrunc A : ℝ) * 0.15 :=
    pyTrunc_le_self (by nlinarith)
  have l3 : (pyTrunc ((pyTrunc A : ℝ) * 0.05) : ℝ) ≤ (pyTrunc A : ℝ) * 0.05 :=
    pyTrunc_le_self (by nlinarith)
  have l4 : (pyTrunc ((pyTrunc A : ℝ) * 0.10) : ℝ) ≤ (pyTrunc A : ℝ) * 0.10 :=
    pyTrunc_le_self (by nlinarith)
  have hsum : ((pyTrunc ((pyTrunc A : ℝ) * 0.7) + pyTrunc ((pyTrunc A : ℝ) * 0.15)
      + pyTrunc ((pyTrunc A : ℝ) * 0.05) + pyTrunc ((pyTrunc A : ℝ) * 0.10) : ℤ) : ℝ)
      ≤ ((pyTrunc A : ℤ) : ℝ) := by
    push_cast
    linarith
  exact_mod_cast hsum

/-- Counterexample to claim C2 as stated: at the concrete step of the
spec's own scenario (initial_exposure 1000, jitter 1, step 0) the step
total is 15 but the four floored counts are 10, 2, 0 and 1, summing to
13 ≠ 15: the 70/15/5/10 floors do not add back up to the total. -/
theorem engagement_split_sum_cex :
    (simulate_time_step_engagement defaultEngagementConfig feedC2 1000 0 9 1).total_engagement = 15
    ∧ (simulate_time_step_engagement defaultEngagementConfig feedC2 1000 0 9 1).likes = 10
    ∧ (simulate_time_step_engagement defaultEngagementConfig feedC2 1000 0 9 1).retweets = 2
    ∧ (simulate_time_step_engagement defaultEngagementConfig feedC2 1000 0 9 1).quotes = 0
    ∧ (simulate_time_step_engagement defaultEngagementConfig feedC2 1000 0 9 1).replies = 1
    ∧ (simulate_time_step_engagement defaultEngagementConfig feedC2 1000 0 9 1).likes
        + (simulate_time_step_engagement defaultEngagementConfig feedC2 1000 0 9 1).retweets
        + (simulate_time_step_engagement defaultEngagementConfig feedC2 1000 0 9 1).quotes
        + (simulate_time_step_engagement defaultEngagementConfig feedC2 1000 0 9 1).replies
      ≠ (simulate_time_step_engagement defaultEngagementConfig feedC2 1000 0 9 1).total_engagement := by
  have h1 : strContainsSub (strToLower feedC2.text) "news" = false := by decide
  have h2 : strContainsSub (strToLower feedC2.text) "breaking" = false := by decide
  have h3 : feedC2.hashtags = [] := rfl
  have h4 : feedC2.created_at = 9 := rfl
  have hdecay : calculate_time_decay feedC2 9 = 1 := by
    simp [calculate_time_decay, h1, h2, h3, h4, Real.exp_zero]
  have hq : estimate_content_quality feedC2 = 0.5 := by
    simp only [estimate_content_quality, feedC2]
    norm_num
  have hh : hourOf (9:ℝ) = 9 := by
    have hfloor : ⌊(9:ℝ)⌋ = 9 := by norm_num
    unfold hourOf
    rw [hfloor]
    decide
  have hm : hourlyActivityMultiplier 9 = 1 := by
    norm_num [hourlyActivityMultiplier]
  have hb : defaultEngagementConfig.base_engagement_rate = 0.03 := rfl
  have hA : pyTrunc (((1000:ℕ) : ℝ) * (defaultEngagementConfig.base_engagement_rate *
      calculate_time_decay feedC2 9 * hourlyActivityMultiplier (hourOf 9) *
      estimate_content_quality feedC2) * 1) = 15 := by
    rw [hdecay, hq, hh, hm, hb]
    norm_num [pyTrunc]
  simp only [simulate_time_step_engagement, hA]
  norm_num [pyTrunc]

/-- Concrete instance of `engagement_split_floors` at the spec scenario
(default config, exposure 1000, jitter 1). -/
theorem engagement_split_floors_witness :
    (0:ℝ) ≤ defaultEngagementConfig.base_engagement_rate
    ∧ (0:ℝ) ≤ 1
    ∧ (simulate_time_step_engagement defaultEngagementConfig feedC2 1000 0 9 1).likes
        + (simulate_time_step_engagement defaultEngagementConfig feedC2 1000 0 9 1).retweets
        + (simulate_time_step_engagement defaultEngagementConfig feedC2 1000 0 9 1).quotes
        + (simulate_time_step_engagement defaultEngagementConfig feedC2 1000 0 9 1).replies
      ≤ (simulate_time_step_engagement defaultEngagementConfig feedC2 1000 0 9 1).total_engagement :=
  ⟨by norm_num [defaultEngagementConfig], by norm_num,
    (engagement_split_floors defaultEngagementConfig feedC2 1000 0 9 1
      (by norm_num [defaultEngagementConfig]) (by norm_num)).2.2.2.2.2⟩

/-- Claim C5: the three configuration dataclasses are constructed exactly
as Python's generated `__init__` does — fields are assigned with no range
checks, so out-of-range values (negative durations, rates outside [0,1],
negative time budgets) are accepted and stored instead of raising. -/
theorem config_accepts_invalid_values :
    (TrendConfig.mk (-1) 6 4 12 48 100 500).emergence_duration_hours = -1
    ∧ (EngagementConfig.mk 72 (-0.5) 0.7 0.1 1).base_engagement_rate = -0.5
    ∧ (SessionConfig.mk (-30) 1 30 2).default_time_budget_minutes = -30 :=
  ⟨rfl, rfl, rfl⟩

theorem foldl_fatigue_invariant (cs : List ContentConsumption) :
    ∀ s : UserSession, 0 ≤ s.fatigue_level → s.fatigue_level ≤ 1 →
      s.fatigue_level ≤ (cs.foldl UserSession.add_consumption s).fatigue_level
      ∧ 0 ≤ (cs.foldl UserSession.add_consumption s).fatigue_level
      ∧ (cs.foldl UserSession.add_consumption s).fatigue_level ≤ 1 := by
  induction cs with
  | nil =>
    intro s h0 h1
    exact ⟨le_refl _, h0, h1⟩
  | cons c cs ih =>
    intro s h0 h1
    simp only [List.foldl_cons]
    have hstep : (UserSession.add_consumption s c).fatigue_level
        = min 1.0 (s.fatigue_level + 0.01) := rfl
    have h0' : 0 ≤ (UserSession.add_consumption s c).fatigue_level := by
      rw [hstep]
      exact le_min (by norm_num) (by linarith)
    have h1' : (UserSession.add_consumption s c).fatigue_level ≤ 1 := by
      rw [hstep]
      exact le_trans (min_le_left _ _) (by norm_num)
    have hmono : s.fatigue_level ≤ (UserSession.add_consumption s c).fatigue_level := by
      rw [hstep]
      exact le_min (by linarith) (by linarith)
    obtain ⟨a, b, d⟩ := ih (UserSession.add_consumption s c) h0' h1'
    exact ⟨le_trans hmono a, b, d⟩

/-- Claim C9: starting from any session whose fatigue is in [0,1] (as
every freshly created session is, with fatigue 0), any sequence of
`add_consumption` calls leaves fatigue non-decreasing and within [0,1];
a single call adds exactly 0.01 whenever that does not exceed the 1.0
cap; and `time_remaining` is never negative for any session state. -/
theorem session_fatigue_monotone (s : UserSession) (cs : List ContentConsumption)
    (h0 : 0 ≤ s.fatigue_level) (h1 : s.fatigue_level ≤ 1) :
    (s.fatigue_level ≤ (cs.foldl UserSession.add_consumption s).fatigue_level
      ∧ 0 ≤ (cs.foldl UserSession.add_consumption s).fatigue_level
      ∧ (cs.foldl UserSession.add_consumption s).fatigue_level ≤ 1)
    ∧ (∀ c : ContentConsumption, s.fatigue_level + 0.01 ≤ 1 →
        (UserSession.add_consumption s c).fatigue_level = s.fatigue_level + 0.01)
    ∧ (∀ u : UserSession, 0 ≤ u.time_remaining) := by
  refine ⟨foldl_fatigue_invariant cs s h0 h1, ?_, ?_⟩
  · intro c hc
    have hstep : (UserSession.add_consumption s c).fatigue_level
        = min 1.0 (s.fatigue_level + 0.01) := rfl
    rw [hstep]
    exact min_eq_right (by linarith)
  · intro u
    exact le_max_left _ _

/-- Concrete instance of `session_fatigue_monotone`: one consumption on a
fresh session. -/
theorem session_fatigue_monotone_witness :
    (0:ℝ) ≤ sessionW.fatigue_level
    ∧ sessionW.fatigue_level ≤ 1
    ∧ sessionW.fatigue_level ≤ (([consW]).foldl UserSession.add_consumption sessionW).fatigue_level :=
  ⟨by norm_num [sessionW], by norm_num [sessionW],
    ((session_fatigue_monotone sessionW [consW] (by norm_num [sessionW])
      (by norm_num [sessionW])).1).1⟩

theorem getD_range_map (f : ℕ → ℝ) (n j : ℕ) :
    ((List.range n).map f).getD j 0 = if j < n then f j else 0 := by
  rcases lt_or_ge j n with h | h
  · rw [if_pos h, List.getD_eq_getElem?_getD, List.getElem?_map, List.getElem?_range h]
    rfl
  · rw [if_neg (not_lt.mpr h), List.getD_eq_getElem?_getD, List.getElem?_eq_none (by simpa using h)]
    rfl

theorem getD_map_scale (l : List ℝ) (a : ℝ) (j : ℕ) :
    (l.map (fun x => x * a)).getD j 0 = l.getD j 0 * a := by
  induction l generalizing j with
  | nil => simp
  | cons x xs ih =>
    cases j with
    | zero => rfl
    | succ j => simpa [List.getD_cons_succ] using ih j

theorem getD_set_self (l : List TrendPhaseData) (i : ℕ) (a : TrendPhaseData)
    (hi : i < l.length) :
    (l.set i a).getD i dummyPhase = a := by
  induction l generalizing i with
  | nil => simp at hi
  | cons x xs ih =>
    cases i with
    | zero => rfl
    | succ i =>
      simp only [List.set_cons_succ, List.getD_cons_succ]
      exact ih i (by simpa using hi)

theorem emergence_curve_nonneg (cfg : TrendConfig) (trend : String) (m t0 : ℝ)
    (hm : 0 ≤ m) (j : ℕ) :
    0 ≤ (model_emergence_phase cfg trend m t0).momentum_curve.getD j 0 := by
  simp only [model_emergence_phase]
  rw [getD_range_map]
  split
  · have hj : (0:ℝ) ≤ (j:ℝ) / 20 := by positivity
    nlinarith
  · exact le_refl 0

theorem growth_curve_nonneg (cfg : TrendConfig) (trend : String) (m t0 : ℝ)
    (hm : 0 ≤ m) (j : ℕ) :
    0 ≤ (model_growth_phase cfg trend m t0).momentum_curve.getD j 0 := by
  simp only [model_growth_phase]
  rw [getD_range_map]
  split
  · have he := Real.exp_pos (3 * ((j:ℝ) / 30))
    nlinarith
  · exact le_refl 0

theorem peak_curve_nonneg (cfg : TrendConfig) (u : ℕ → ℝ) (trend : String) (m t0 : ℝ)
    (hm : 0 ≤ m) (hu : ∀ i, -0.1 ≤ u i ∧ u i ≤ 0.1) (j : ℕ) :
    0 ≤ (model_peak_phase cfg u trend m t0).momentum_curve.getD j 0 := by
  simp only [model_peak_phase]
  rw [getD_range_map]
  split
  · have h1 : 0 ≤ m * Real.exp 3 * 1.5 :=
      mul_nonneg (mul_nonneg hm (Real.exp_pos 3).le) (by norm_num)
    have h2 : 0 ≤ 1 + u j := by linarith [(hu j).1]
    exact mul_nonneg h1 h2
  · exact le_refl 0

theorem decline_curve_nonneg (cfg : TrendConfig) (trend : String) (m t0 : ℝ)
    (hm : 0 ≤ m) (j : ℕ) :
    0 ≤ (model_decline_phase cfg trend m t0).momentum_curve.getD j 0 := by
  simp only [model_decline_phase]
  rw [getD_range_map]
  split
  · exact mul_nonneg (mul_nonneg (mul_nonneg hm (Real.exp_pos 3).le) (by norm_num))
      (Real.exp_pos _).le
  · exact le_refl 0

theorem tail_curve_nonneg (cfg : TrendConfig) (trend : String) (m t0 : ℝ)
    (hm : 0 ≤ m) (j : ℕ) :
    0 ≤ (model_tail_phase cfg trend m t0).momentum_curve.getD j 0 := by
  simp only [model_tail_phase]
  rw [getD_range_map]
  split
  · exact le_trans (mul_nonneg hm (by norm_num)) (le_max_right _ _)
  · exact le_refl 0

theorem phase_windows (cfg : TrendConfig) (u : ℕ → ℝ) (trend : String) (m t0 : ℝ) :
    (phaseAt (model_trend_lifecycle cfg u trend m t0) 0).start_time = t0
    ∧ (phaseAt (model_trend_lifecycle cfg u trend m t0) 0).end_time
        = t0 + cfg.emergence_duration_hours
    ∧ (phaseAt (model_trend_lifecycle cfg u trend m t0) 1).start_time
        = t0 + cfg.emergence_duration_hours
    ∧ (phaseAt (model_trend_lifecycle cfg u trend m t0) 1).end_time
        = t0 + cfg.emergence_duration_hours + cfg.growth_duration_hours
    ∧ (phaseAt (model_trend_lifecycle cfg u trend m t0) 2).start_time
        = t0 + (cfg.emergence_duration_hours + cfg.growth_duration_hours)
    ∧ (phaseAt (model_trend_lifecycle cfg u trend m t0) 2).end_time
        = t0 + (cfg.emergence_duration_hours + cfg.growth_duration_hours)
            + cfg.peak_duration_hours
    ∧ (phaseAt (model_trend_lifecycle cfg u trend m t0) 3).start_time
        = t0 + (cfg.emergence_duration_hours + cfg.growth_duration_hours
            + cfg.peak_duration_hours)
    ∧ (phaseAt (model_trend_lifecycle cfg u trend m t0) 3).end_time
        = t0 + (cfg.emergence_duration_hours + cfg.growth_duration_hours
            + cfg.peak_duration_hours) + cfg.decline_duration_hours
    ∧ (phaseAt (model_trend_lifecycle cfg u trend m t0) 4).start_time
        = t0 + (cfg.emergence_duration_hours + cfg.growth_duration_hours
            + cfg.peak_duration_hours + cfg.decline_duration_hours)
    ∧ (phaseAt (model_trend_lifecycle cfg u trend m t0) 4).end_time
        = t0 + (cfg.emergence_duration_hours + cfg.growth_duration_hours
            + cfg.peak_duration_hours + cfg.decline_duration_hours)
            + cfg.tail_duration_hours :=
  ⟨rfl, rfl, rfl, rfl, rfl, rfl, rfl, rfl, rfl, rfl⟩

/-- Claim C8: for a lifecycle built with initial momentum m > 0 (the peak
fluctuations being draws from uniform(-0.1, 0.1)), every sample of every
phase's momentum curve is non-negative, and the five phase windows tile
time contiguously: the first phase starts at the model's creation time and
each later phase starts exactly where the previous one ends. -/
theorem lifecycle_nonneg_and_contiguous (cfg : TrendConfig) (u : ℕ → ℝ) (trend : String)
    (m t0 : ℝ) (hm : 0 < m) (hu : ∀ i, -0.1 ≤ u i ∧ u i ≤ 0.1) :
    (∀ i j : ℕ,
      0 ≤ (phaseAt (model_trend_lifecycle cfg u trend m t0) i).momentum_curve.getD j 0)
    ∧ (phaseAt (model_trend_lifecycle cfg u trend m t0) 0).start_time = t0
    ∧ (∀ i : ℕ, i < 4 →
        (phaseAt (model_trend_lifecycle cfg u trend m t0) (i + 1)).start_time
          = (phaseAt (model_trend_lifecycle cfg u trend m t0) i).end_time) := by
  obtain ⟨w0s, w0e, w1s, w1e, w2s, w2e, w3s, w3e, w4s, w4e⟩ :=
    phase_windows cfg u trend m t0
  refine ⟨?_, w0s, ?_⟩
  · intro i j
    rcases Nat.lt_or_ge i 5 with h5 | h5
    · interval_cases i
      · exact emergence_curve_nonneg cfg trend m t0 hm.le j
      · exact growth_curve_nonneg cfg trend m t0 hm.le j
      · exact peak_curve_nonneg cfg u trend m t0 hm.le hu j
      · exact decline_curve_nonneg cfg trend m t0 hm.le j
      · exact tail_curve_nonneg cfg trend m t0 hm.le j
    · have hd : phaseAt (model_trend_lifecycle cfg u trend m t0) i = dummyPhase := by
        rw [phaseAt]
        apply List.getD_eq_default
        simpa using h5
      rw [hd]
      exact le_refl 0
  · intro i hi
    interval_cases i
    · rw [w1s, w0e]
    · rw [w2s, w1e]
      ring
    · rw [w3s, w2e]
      ring
    · rw [w4s, w3e]
      ring

/-- Concrete instance of `lifecycle_nonneg_and_contiguous` (default config,
zero fluctuation, m = 10): one sample bound and one window junction. -/
theorem lifecycle_nonneg_and_contiguous_witness :
    (0:ℝ) < 10
    ∧ 0 ≤ (phaseAt lcW 2).momentum_curve.getD 3 0
    ∧ (phaseAt lcW 1).start_time = (phaseAt lcW 0).end_time := by
  have h := lifecycle_nonneg_and_contiguous defaultTrendConfig zeroFluct "trend" 10 0
    (by norm_num) (fun i => by norm_num [zeroFluct])
  exact ⟨by norm_num, h.1 2 3, h.2.2 0 (by norm_num)⟩

/-- Claim C10: for a lifecycle with initial momentum m > 0, every Tail
phase sample equals exactly m * 0.5: the Tail starting level
m * exp(-3) * 1.5 is already below the floor m * 0.5, so the floor clamp
determines every stored sample and the logarithmic decay formula never
shows through. -/
theorem tail_phase_constant_floor (cfg : TrendConfig) (u : ℕ → ℝ) (trend : String)
    (m t0 : ℝ) (hm : 0 < m) :
    ∀ j : ℕ, j < 50 →
      (phaseAt (model_trend_lifecycle cfg u trend m t0) 4).momentum_curve.getD j 0
        = m * 0.5 := by
  intro j hj
  have hcurve : (phaseAt (model_trend_lifecycle cfg u trend m t0) 4).momentum_curve
      = (List.range 50).map (fun (i : ℕ) =>
          max (m * Real.exp (-3) * 1.5 * (1 - Real.logb 10 (1 + 9 * ((i : ℝ) / 50))))
            (m * 0.5)) := rfl
  rw [hcurve, getD_range_map, if_pos hj]
  apply max_eq_right
  have hj50 : (0:ℝ) ≤ (j : ℝ) / 50 := by positivity
  have hlog : 0 ≤ Real.logb 10 (1 + 9 * ((j : ℝ) / 50)) :=
    Real.logb_nonneg (by norm_num) (by linarith)
  have hstart : 0 ≤ m * Real.exp (-3) * 1.5 :=
    mul_nonneg (mul_nonneg hm.le (Real.exp_pos _).le) (by norm_num)
  have h3 : (3:ℝ) < Real.exp 3 := by
    nlinarith [Real.add_one_lt_exp (by norm_num : (3:ℝ) ≠ 0)]
  have hexp : Real.exp (-3) * 1.5 < 0.5 := by
    have h1 : Real.exp (-3) * Real.exp 3 = 1 := by
      rw [← Real.exp_add]
      norm_num
    nlinarith [mul_pos (Real.exp_pos (-3)) (sub_pos.mpr h3), h1]
  have hc : m * Real.exp (-3) * 1.5 * (1 - Real.logb 10 (1 + 9 * ((j : ℝ) / 50)))
      ≤ m * Real.exp (-3) * 1.5 := by
    nlinarith [mul_nonneg hstart hlog]
  have hlt : m * Real.exp (-3) * 1.5 < m * 0.5 := by
    nlinarith [mul_pos hm (sub_pos.mpr hexp)]
  linarith

/-- Concrete instance of `tail_phase_constant_floor`: the fourth Tail
sample of the m = 10 lifecycle is exactly 5. -/
theorem tail_phase_constant_floor_witness :
    (0:ℝ) < 10 ∧ (phaseAt lcW 4).momentum_curve.getD 3 0 = 10 * 0.5 :=
  ⟨by norm_num,
    tail_phase_constant_floor defaultTrendConfig zeroFluct "trend" 10 0 (by norm_num)
      3 (by norm_num)⟩

/-- Counterexample to claim C4 as stated: querying trend momentum for a
trend with no active lifecycle and no supplied mention/engagement data
returns the code's default of 1.0, not 0 (it indeed does not raise). -/
theorem unknown_trend_momentum_cex :
    calculate_trend_momentum [] "x" 0 1 none none = 1
    ∧ calculate_trend_momentum [] "x" 0 1 none none ≠ 0 := by
  constructor
  · norm_num [calculate_trend_momentum, List.lookup]
  · norm_num [calculate_trend_momentum, List.lookup]

/-- Claim C4 (amended): `get_current_momentum` at any time strictly after
the last phase's end returns 0 (for a lifecycle built from any config
with non-negative phase durations), and `calculate_trend_momentum` for a
trend with no active lifecycle and no supplied data returns the default
1.0 — not 0 — without raising. -/
theorem momentum_after_end_and_default (cfg : TrendConfig) (u : ℕ → ℝ)
    (trend trend2 : String) (m t0 t now tw : ℝ)
    (he : 0 ≤ cfg.emergence_duration_hours) (hg : 0 ≤ cfg.growth_duration_hours)
    (hp : 0 ≤ cfg.peak_duration_hours) (hd : 0 ≤ cfg.decline_duration_hours)
    (htl : 0 ≤ cfg.tail_duration_hours)
    (ht : t0 + (cfg.emergence_duration_hours + cfg.growth_duration_hours +
      cfg.peak_duration_hours + cfg.decline_duration_hours + cfg.tail_duration_hours) < t) :
    get_current_momentum (model_trend_lifecycle cfg u trend m t0) t = 0
    ∧ calculate_trend_momentum [] trend2 now tw none none = 1 := by
  constructor
  · have e0 : (model_emergence_phase cfg trend m t0).end_time
        = t0 + cfg.emergence_duration_hours := rfl
    have e1 : (model_growth_phase cfg trend m t0).end_time
        = t0 + cfg.emergence_duration_hours + cfg.growth_duration_hours := rfl
    have e2 : (model_peak_phase cfg u trend m t0).end_time
        = t0 + (cfg.emergence_duration_hours + cfg.growth_duration_hours)
            + cfg.peak_duration_hours := rfl
    have e3 : (model_decline_phase cfg trend m t0).end_time
        = t0 + (cfg.emergence_duration_hours + cfg.growth_duration_hours
            + cfg.peak_duration_hours) + cfg.decline_duration_hours := rfl
    have e4 : (model_tail_phase cfg trend m t0).end_time
        = t0 + (cfg.emergence_duration_hours + cfg.growth_duration_hours
            + cfg.peak_duration_hours + cfg.decline_duration_hours)
            + cfg.tail_duration_hours := rfl
    show momentum_lookup t (model_trend_lifecycle cfg u trend m t0).phases = 0
    simp only [model_trend_lifecycle]
    simp only [momentum_lookup]
    split_ifs with h1 h2 h3 h4 h5
    · exfalso; have := h1.2.1; rw [e0] at this; linarith
    · exfalso; have := h2.2.1; rw [e1] at this; linarith
    · exfalso; have := h3.2.1; rw [e2] at this; linarith
    · exfalso; have := h4.2.1; rw [e3] at this; linarith
    · exfalso; have := h5.2.1; rw [e4] at this; linarith
    · norm_num
  · norm_num [calculate_trend_momentum, List.lookup]

/-- Concrete instance of `momentum_after_end_and_default`: the m = 10
default-config lifecycle created at time 0 ends at hour 72; its momentum
at hour 1000 is 0, and the unknown-trend momentum default is 1. -/
theorem momentum_after_end_and_default_witness :
    get_current_momentum lcW 1000 = 0
    ∧ calculate_trend_momentum [] "x" 0 1 none none = 1 :=
  momentum_after_end_and_default defaultTrendConfig zeroFluct "trend" "x" 10 0 1000 0 1
    (by norm_num [defaultTrendConfig]) (by norm_num [defaultTrendConfig])
    (by norm_num [defaultTrendConfig]) (by norm_num [defaultTrendConfig])
    (by norm_num [defaultTrendConfig]) (by norm_num [defaultTrendConfig])

theorem shock_phases_set (t s : ℝ) (ps : List TrendPhaseData) :
    ∀ i : ℕ, i < ps.length →
    (∀ j, j < i → ¬((ps.getD j dummyPhase).start_time ≤ t
      ∧ t < (ps.getD j dummyPhase).end_time)) →
    (ps.getD i dummyPhase).start_time ≤ t →
    t < (ps.getD i dummyPhase).end_time →
    shock_phases t s ps = ps.set i
      { ps.getD i dummyPhase with
        momentum_curve := (ps.getD i dummyPhase).momentum_curve.map (fun x => x * (1 + s)) } := by
  induction ps with
  | nil =>
    intro i hi _ _ _
    simp at hi
  | cons p rest ih =>
    intro i hi hbefore hw1 hw2
    cases i with
    | zero =>
      simp only [List.getD_cons_zero] at hw1 hw2 ⊢
      simp only [shock_phases]
      rw [if_pos ⟨hw1, hw2⟩]
      rfl
    | succ i =>
      have h0 := hbefore 0 (Nat.succ_pos i)
      simp only [List.getD_cons_zero] at h0
      simp only [List.getD_cons_succ] at hw1 hw2 ⊢
      simp only [shock_phases]
      rw [if_neg h0]
      simp only [List.set_cons_succ]
      congr 1
      exact ih i (by simpa using hi)
        (fun j hj => by
          have hb := hbefore (j + 1) (by omega)
          simpa only [List.getD_cons_succ] using hb)
        hw1 hw2

/-- Claim C7: if some phase window of an active lifecycle contains the
moment of the shock, `apply_trend_shock` multiplies every momentum sample
of that phase by (1 + intensity) and leaves every other phase untouched:
the phase list becomes the old list with exactly the active phase's curve
scaled, and each of its samples equals the pre-shock sample times
(1 + intensity). -/
theorem shock_scales_active_phase (cfg : TrendConfig) (u : ℕ → ℝ) (trend : String)
    (m t0 t s : ℝ) (i : ℕ)
    (he : 0 ≤ cfg.emergence_duration_hours) (hg : 0 ≤ cfg.growth_duration_hours)
    (hp : 0 ≤ cfg.peak_duration_hours) (hdc : 0 ≤ cfg.decline_duration_hours)
    (hi : i < 5)
    (hw1 : (phaseAt (model_trend_lifecycle cfg u trend m t0) i).start_time ≤ t)
    (hw2 : t < (phaseAt (model_trend_lifecycle cfg u trend m t0) i).end_time) :
    (apply_trend_shock_lifecycle (model_trend_lifecycle cfg u trend m t0) t s).phases
      = (model_trend_lifecycle cfg u trend m t0).phases.set i
          { phaseAt (model_trend_lifecycle cfg u trend m t0) i with
            momentum_curve :=
              (phaseAt (model_trend_lifecycle cfg u trend m t0) i).momentum_curve.map
                (fun x => x * (1 + s)) }
    ∧ ∀ j : ℕ,
        (phaseAt (apply_trend_shock_lifecycle (model_trend_lifecycle cfg u trend m t0) t s)
          i).momentum_curve.getD j 0
          = (phaseAt (model_trend_lifecycle cfg u trend m t0) i).momentum_curve.getD j 0
              * (1 + s) := by
  obtain ⟨w0s, w0e, w1s, w1e, w2s, w2e, w3s, w3e, w4s, w4e⟩ :=
    phase_windows cfg u trend m t0
  have hlen : (model_trend_lifecycle cfg u trend m t0).phases.length = 5 := rfl
  have hbefore : ∀ j, j < i →
      ¬(((model_trend_lifecycle cfg u trend m t0).phases.getD j dummyPhase).start_time ≤ t
        ∧ t < ((model_trend_lifecycle cfg u trend m t0).phases.getD j dummyPhase).end_time) := by
    intro j hj hcon
    have hlt : t < (phaseAt (model_trend_lifecycle cfg u trend m t0) j).end_time := hcon.2
    have hij : j < 5 := by omega
    interval_cases i <;> interval_cases j <;>
      simp only [w0s, w0e, w1s, w1e, w2s, w2e, w3s, w3e, w4s, w4e] at hw1 hlt <;>
      linarith
  have hwin1 : ((model_trend_lifecycle cfg u trend m t0).phases.getD i dummyPhase).start_time
      ≤ t := hw1
  have hwin2 : t < ((model_trend_lifecycle cfg u trend m t0).phases.getD i
      dummyPhase).end_time := hw2
  have hset := shock_phases_set t s (model_trend_lifecycle cfg u trend m t0).phases i
    (by rw [hlen]; exact hi) hbefore hwin1 hwin2
  refine ⟨hset, ?_⟩
  intro j
  have hphase : phaseAt
      (apply_trend_shock_lifecycle (model_trend_lifecycle cfg u trend m t0) t s) i
      = { phaseAt (model_trend_lifecycle cfg u trend m t0) i with
          momentum_curve :=
            (phaseAt (model_trend_lifecycle cfg u trend m t0) i).momentum_curve.map
              (fun x => x * (1 + s)) } := by
    show ((apply_trend_shock_lifecycle (model_trend_lifecycle cfg u trend m t0)
      t s).phases).getD i dummyPhase = _
    rw [show (apply_trend_shock_lifecycle (model_trend_lifecycle cfg u trend m t0)
      t s).phases = _ from hset]
    exact getD_set_self _ _ _ (by rw [hlen]; exact hi)
  rw [hphase]
  exact getD_map_scale _ _ j

/-- Concrete instance of `shock_scales_active_phase`: a shock of intensity
0.8 at hour 3 (inside the default Growth window [2, 8)) multiplies the
Growth samples of the m = 10 lifecycle by 1.8. -/
theorem shock_scales_active_phase_witness :
    (phaseAt (apply_trend_shock_lifecycle lcW 3 0.8) 1).momentum_curve.getD 0 0
      = (phaseAt lcW 1).momentum_curve.getD 0 0 * (1 + 0.8) :=
  (shock_scales_active_phase defaultTrendConfig zeroFluct "trend" 10 0 3 0.8 1
    (by norm_num [defaultTrendConfig]) (by norm_num [defaultTrendConfig])
    (by norm_num [defaultTrendConfig]) (by norm_num [defaultTrendConfig])
    (by norm_num)
    (by rw [(phase_windows defaultTrendConfig zeroFluct "trend" 10 0).2.2.1]
        norm_num [defaultTrendConfig])
    (by rw [(phase_windows defaultTrendConfig zeroFluct "trend" 10 0).2.2.2.1]
        norm_num [defaultTrendConfig])).2 0
